import Mathlib

/-!
Shallow embedding of the PSA squash rankings scraper (bubble90/psa-squash-rankings-scraper).

The repository contains two live snapshots of the scraper:
  * a flat legacy module layout (`src/api_scraper.py`, `src/data_parser.py`,
    `src/run_scraper.py`), embedded below in namespace `Legacy`;
  * a packaged layout (`src/src/psa_squash_rankings/...`), embedded in namespace `Pkg`.
Both are exercised by the repository's tests, so both are embedded faithfully.

Python JSON values appearing inside a player object are modelled by `PyVal`
(ints, strings, None).  Python exceptions are modelled by `PyError`; fallible
Python functions become `Except PyError _`.  Floating point conversion factors
(2.54, 30.48, 0.453592) are exact decimals, modelled in scaled integer
arithmetic, with Python's `round` (half to even) as `roundHalfEven`.
The HTTP collaborator becomes a function from page number to a response; file
based checkpoint storage becomes a map from collection key to the stored
structured value.
-/

/-- A Python value as it appears in a parsed JSON player object. -/
inductive PyVal where
  | vint (n : Int)
  | vstr (s : String)
  | vnone
deriving Repr, DecidableEq

/-- A Python exception, identified by its class and payload.
`schemaError` is the `ValueError` raised by `validate_api_schema`; its payload
is the set of missing required fields (Python embeds the set into the message
string; the set itself is the information the message carries). -/
inductive PyError where
  | valueError (msg : String)
  | schemaError (missing : List String)
  | typeError (msg : String)
  | keyError (key : String)
  | transport (msg : String)
  | appError (msg : String)
deriving Repr, DecidableEq

/-- `str(e)` for a modelled exception: the message the caller sees. -/
def PyError.message : PyError → String
  | .valueError m => m
  | .schemaError missing => "API schema validation failed. Missing fields: " ++ toString missing
  | .typeError m => m
  | .keyError k => k
  | .transport m => m
  | .appError m => m

/-- Python truthiness for the modelled values. -/
def PyVal.truthy : PyVal → Bool
  | .vint n => n != 0
  | .vstr s => !s.isEmpty
  | .vnone => false

/-- `str(value)` for the modelled values. -/
def PyVal.str : PyVal → String
  | .vint n => toString n
  | .vstr s => s
  | .vnone => "None"

/-- A raw API player object: a JSON object restricted to the keys the scraper
reads.  A field is `none` when the key is absent from the object (keys the
code never reads do not influence any behaviour being modelled). -/
structure RawPlayer where
  worldRanking : Option PyVal := none
  name : Option PyVal := none
  id : Option PyVal := none
  tournaments : Option PyVal := none
  totalPoints : Option PyVal := none
  birthdate : Option PyVal := none
  height : Option PyVal := none
  weight : Option PyVal := none
  country : Option PyVal := none
deriving Repr, DecidableEq

/-- `REQUIRED_API_FIELDS` from `data_parser.py` / `validator.py`. -/
def REQUIRED_API_FIELDS : List String :=
  ["World Ranking", "Name", "Id", "Tournaments", "Total Points"]

/-- `player.keys()` restricted to the keys the scraper reads. -/
def RawPlayer.keys (p : RawPlayer) : List String :=
  (if p.worldRanking.isSome then ["World Ranking"] else []) ++
  (if p.name.isSome then ["Name"] else []) ++
  (if p.id.isSome then ["Id"] else []) ++
  (if p.tournaments.isSome then ["Tournaments"] else []) ++
  (if p.totalPoints.isSome then ["Total Points"] else []) ++
  (if p.birthdate.isSome then ["Birthdate"] else []) ++
  (if p.height.isSome then ["Height"] else []) ++
  (if p.weight.isSome then ["Weight"] else []) ++
  (if p.country.isSome then ["Country"] else [])

/-- `REQUIRED_API_FIELDS - player.keys()` (a Python set difference; here kept
in the fixed order of `REQUIRED_API_FIELDS`). -/
def missing_fields (p : RawPlayer) : List String :=
  REQUIRED_API_FIELDS.filter (fun f => !(p.keys.contains f))

/-- `validate_api_schema` (identical in `src/data_parser.py` and
`src/validator.py`): raise `ValueError` enumerating the missing required
fields when any are absent. -/
def validate_api_schema (p : RawPlayer) : Except PyError Unit :=
  let missing := missing_fields p
  if missing.isEmpty then .ok () else .error (.schemaError missing)

/-- Digits of a decimal string interpreted as a natural number. -/
def digitsVal (cs : List Char) : Nat :=
  cs.foldl (fun acc c => 10 * acc + (c.toNat - 48)) 0

/-- `int(s)` on a string: optional surrounding whitespace, optional sign,
then decimal digits. -/
def str_to_int (s : String) : Option Int :=
  let t := (s.data.dropWhile Char.isWhitespace).reverse.dropWhile Char.isWhitespace |>.reverse
  match t with
  | [] => none
  | c :: rest =>
    if c = Char.ofNat 45 then
      if rest ≠ [] ∧ rest.all Char.isDigit then some (-(digitsVal rest : Int)) else none
    else if t.all Char.isDigit then some (digitsVal t : Int)
    else none

/-- `int(value)` coercion on a modelled Python value. -/
def pyInt : PyVal → Except PyError Int
  | .vint n => .ok n
  | .vstr s =>
    match str_to_int s with
    | some n => .ok n
    | none => .error (.valueError ("invalid literal for int() with base 10: " ++ s))
  | .vnone => .error (.typeError "int() argument must be a string or a number, not NoneType")

/-- Python `round` on the rational `n / d` (with `d > 0`): nearest integer,
ties to even.  The scraper's unit factors are exact decimal constants, so the
float computation is modelled by this exact scaled-integer computation. -/
def roundHalfEven (n : Int) (d : Int) : Int :=
  let q := Int.fdiv n d
  let r := Int.fmod n d
  if 2 * r < d then q
  else if 2 * r > d then q + 1
  else if q % 2 = 0 then q else q + 1

/-- `str.strip()`: drop whitespace from both ends. -/
def pyStrip (cs : List Char) : List Char :=
  ((cs.dropWhile Char.isWhitespace).reverse.dropWhile Char.isWhitespace).reverse

/-- `str.lower()` on the ASCII range the scraper manipulates. -/
def lowerChars (cs : List Char) : List Char :=
  cs.map Char.toLower

/-- `re.sub(r"[^0-9]", "", s)`: keep only digit characters. -/
def filterDigits (cs : List Char) : List Char :=
  cs.filter Char.isDigit

/-- Is `pat` a contiguous run at the front of `cs`? -/
def chPre (pat : List Char) (cs : List Char) : Bool :=
  match pat, cs with
  | [], _ => true
  | _ :: _, [] => false
  | a :: ps, b :: rest => a == b && chPre ps rest

/-- Python `pat in s`: contiguous substring test. -/
def chSub (pat : List Char) (cs : List Char) : Bool :=
  match cs with
  | [] => pat.isEmpty
  | _ :: rest => chPre pat cs || chSub pat rest

/-- `re.findall(r"(\d+)", s)`: the maximal runs of digit characters, in order. -/
def digitGroups : List Char → List (List Char)
  | [] => []
  | c :: rest =>
    if c.isDigit then
      match digitGroups rest with
      | g :: gs =>
        match rest with
        | r :: _ => if r.isDigit then (c :: g) :: gs else [c] :: g :: gs
        | [] => [c] :: gs
      | [] => [[c]]
    else digitGroups rest

namespace Pkg

/-- `parse_measure` from `src/src/psa_squash_rankings/data_parser.py`:
multi-unit height/weight recognition.  Falsy or blank input returns `None`;
imperial notation (apostrophe or `ft` marker) uses the first two digit groups
as feet and inches, or a lone group as feet; `in` and `lb`/`pound` markers
convert inches and pounds; otherwise all non-digits are stripped and the rest
parsed as an integer already in the metric unit.  A branch whose digit
extraction comes up empty falls through to the next check, ending in a
`ValueError` when no digits exist at all.  The `try`/`except` around the
imperial branch is dead in Python (digit groups always convert to int), so it
has no counterpart here. -/
def parse_measure (value : PyVal) (unit_label : String) : Except PyError (Option Int) :=
  if !value.truthy || (pyStrip value.str.data).isEmpty then .ok none
  else
    let val_str := lowerChars (pyStrip value.str.data)
    let imperial := chSub [Char.ofNat 39] val_str || chSub [Char.ofNat 102, Char.ofNat 116] val_str
    let parts := digitGroups val_str
    if imperial && decide (2 ≤ parts.length) then
      let feet : Int := digitsVal (parts.headD [])
      let inches : Int := digitsVal ((parts.drop 1).headD [])
      .ok (some (roundHalfEven ((feet * 12 + inches) * 254) 100))
    else if imperial && parts.length == 1 then
      .ok (some (roundHalfEven ((digitsVal (parts.headD []) : Int) * 3048) 100))
    else if chSub [Char.ofNat 105, Char.ofNat 110] val_str && !(filterDigits val_str).isEmpty then
      .ok (some (roundHalfEven ((digitsVal (filterDigits val_str) : Int) * 254) 100))
    else if (chSub [Char.ofNat 108, Char.ofNat 98] val_str ||
             chSub [Char.ofNat 112, Char.ofNat 111, Char.ofNat 117, Char.ofNat 110, Char.ofNat 100] val_str) &&
            !(filterDigits val_str).isEmpty then
      .ok (some (roundHalfEven ((digitsVal (filterDigits val_str) : Int) * 453592) 1000000))
    else
      let clean_value := filterDigits val_str
      if clean_value.isEmpty then
        .error (.valueError ("No numeric data found for " ++ unit_label ++ ": \x27" ++
          String.mk val_str ++ "\x27"))
      else .ok (some (digitsVal clean_value : Int))

end Pkg

namespace Legacy

/-- `parse_measure` from `src/data_parser.py`: falsy or blank input returns
the sentinel string `"N/A"`; otherwise all non-digit characters are stripped
and the remainder parsed as an integer, raising a `ValueError` naming the
label and raw value when nothing remains. -/
def parse_measure (value : PyVal) (unit_label : String) : Except PyError PyVal :=
  if !value.truthy || (pyStrip value.str.data).isEmpty then .ok (.vstr "N/A")
  else
    let clean_value := filterDigits value.str.data
    if clean_value.isEmpty then
      .error (.valueError ("Invalid format for " ++ unit_label ++ ": \x27" ++ value.str ++
        "\x27. Expected numeric value (e.g., \x27185cm\x27 or \x27185\x27)."))
    else .ok (.vint (digitsVal clean_value : Int))

end Legacy

/-- Complete player record produced by the packaged API scraper
(`ApiPlayerRecord` in `src/src/psa_squash_rankings/schema.py`). -/
structure ApiPlayerRecord where
  rank : PyVal
  player : PyVal
  id : Int
  tournaments : Int
  points : Int
  height_cm : Option Int
  weight_kg : Option Int
  birthdate : Option PyVal
  country : Option PyVal
  source : String
deriving Repr, DecidableEq

/-- Legacy normalized ranking record (`parse_api_player` in
`src/data_parser.py`): optional fields default to the sentinel `"N/A"`. -/
structure LegacyPlayerRecord where
  rank : PyVal
  player : PyVal
  id : Int
  tournaments : Int
  points : Int
  height_cm : PyVal
  weight_kg : PyVal
  birthdate : PyVal
  country : PyVal
deriving Repr, DecidableEq

/-- Degraded player record from the HTML fallback scraper (all cells kept as
text by `scrape_rankings_html` in `src/html_scraper.py`). -/
structure HtmlPlayerRecord where
  rank : String
  player : String
  tournaments : String
  points : String
deriving Repr, DecidableEq

/-- `player[key]`: `KeyError` when the key is absent (unreachable after
schema validation). -/
def requireField (o : Option PyVal) (key : String) : Except PyError PyVal :=
  match o with
  | some v => .ok v
  | none => .error (.keyError key)

namespace Pkg

/-- `parse_api_player` from `src/src/psa_squash_rankings/data_parser.py`:
validate the schema, coerce the numeric required fields with `int()`, carry
rank and name through unchanged, and fill the optional fields — a
`parse_measure` failure on height or weight is downgraded to `None`. -/
def parse_api_player (player : RawPlayer) : Except PyError ApiPlayerRecord := do
  let _ ← validate_api_schema player
  let rank ← requireField player.worldRanking "World Ranking"
  let name ← requireField player.name "Name"
  let idv ← requireField player.id "Id"
  let idn ← pyInt idv
  let tv ← requireField player.tournaments "Tournaments"
  let tn ← pyInt tv
  let pv ← requireField player.totalPoints "Total Points"
  let pn ← pyInt pv
  let height_cm : Option Int :=
    if (player.height.getD .vnone).truthy then
      match parse_measure (player.height.getD .vnone) "Height" with
      | .ok v => v
      | .error _ => none
    else none
  let weight_kg : Option Int :=
    if (player.weight.getD .vnone).truthy then
      match parse_measure (player.weight.getD .vnone) "Weight" with
      | .ok v => v
      | .error _ => none
    else none
  .ok { rank := rank, player := name, id := idn, tournaments := tn, points := pn,
        height_cm := height_cm, weight_kg := weight_kg,
        birthdate := player.birthdate, country := player.country, source := "api" }

end Pkg

namespace Legacy

/-- `parse_api_player` from `src/data_parser.py`: like the packaged variant
but with `"N/A"` sentinels for absent or unparseable optional fields. -/
def parse_api_player (player : RawPlayer) : Except PyError LegacyPlayerRecord := do
  let _ ← validate_api_schema player
  let rank ← requireField player.worldRanking "World Ranking"
  let name ← requireField player.name "Name"
  let idv ← requireField player.id "Id"
  let idn ← pyInt idv
  let tv ← requireField player.tournaments "Tournaments"
  let tn ← pyInt tv
  let pv ← requireField player.totalPoints "Total Points"
  let pn ← pyInt pv
  let height_cm : PyVal :=
    if (player.height.getD .vnone).truthy then
      match parse_measure (player.height.getD .vnone) "Height" with
      | .ok v => v
      | .error _ => .vstr "N/A"
    else .vstr "N/A"
  let weight_kg : PyVal :=
    if (player.weight.getD .vnone).truthy then
      match parse_measure (player.weight.getD .vnone) "Weight" with
      | .ok v => v
      | .error _ => .vstr "N/A"
    else .vstr "N/A"
  let birthdate := (player.birthdate.getD (.vstr "N/A"))
  let country := (player.country.getD (.vstr "N/A"))
  .ok { rank := rank, player := name, id := idn, tournaments := tn, points := pn,
        height_cm := height_cm, weight_kg := weight_kg,
        birthdate := birthdate, country := country }

end Legacy

/-- The structured value `save_checkpoint` serializes to the per-gender
checkpoint file (`{gender, last_page, total_players, players}`). -/
structure CheckpointData (α : Type) where
  gender : String
  last_page : Nat
  total_players : Nat
  players : List α
deriving Repr, DecidableEq

/-- Checkpoint storage: one durable slot per collection key (the per-gender
JSON file under `CHECKPOINT_DIR`). -/
def Store (α : Type) : Type := String → Option (CheckpointData α)

/-- `save_checkpoint`: atomically overwrite the slot for `gender` with the
current progress (JSON serialization of the structured value is modelled by
storing the value itself). -/
def save_checkpoint {α : Type} (st : Store α) (gender : String) (page : Nat)
    (data : List α) : Store α :=
  fun k => if k = gender then
    some { gender := gender, last_page := page, total_players := data.length, players := data }
  else st k

/-- `load_checkpoint`: the stored state for `gender`, or `none` when the slot
does not exist (an unreadable file also yields `none` in the source; both
collapse to the absent slot here). -/
def load_checkpoint {α : Type} (st : Store α) (gender : String) :
    Option (CheckpointData α) :=
  st gender

/-- `clear_checkpoint`: remove the slot for `gender`; absent slot is a no-op. -/
def clear_checkpoint {α : Type} (st : Store α) (gender : String) : Store α :=
  fun k => if k = gender then none else st k

/-- A keyed (dict-shaped) API response, restricted to the keys the scraper
reads: `players`, `data`, `hasMore`.  `none` means the key is absent. -/
structure JDict where
  players : Option (List RawPlayer)
  data : Option (List RawPlayer)
  hasMore : Option Bool
deriving Repr, DecidableEq

/-- `raw_data.keys()` restricted to the keys the scraper reads. -/
def JDict.keys (d : JDict) : List String :=
  (if d.players.isSome then ["players"] else []) ++
  (if d.data.isSome then ["data"] else []) ++
  (if d.hasMore.isSome then ["hasMore"] else [])

/-- The JSON body of one page response: a keyed structure, a bare list, or
some other top-level type. -/
inductive ApiJson where
  | jdict (d : JDict)
  | jlist (items : List RawPlayer)
  | jother
deriving Repr, DecidableEq

/-- The primary source endpoint: page number to response body, or a
network/timeout/HTTP failure (the message of the raised request exception). -/
def ApiServer : Type := Nat → Except String ApiJson

/-- Python `if max_pages and page > max_pages`: `None` and `0` are both
falsy, so neither enables the page cap. -/
def maxPagesTruthy : Option Nat → Bool
  | none => false
  | some n => n != 0

/-- Outcome of a fetch run: the returned records, the final checkpoint store,
and the pages requested, for a successful run, an aborted run, or a run that
did not terminate within the given fuel. -/
inductive FetchOutcome (α : Type) where
  | ok (players : List α) (st : Store α) (requested : List Nat)
  | err (e : PyError) (st : Store α) (requested : List Nat)
  | spin (st : Store α) (requested : List Nat)

/-- The pages requested during the run. -/
def FetchOutcome.requested {α : Type} : FetchOutcome α → List Nat
  | .ok _ _ r => r
  | .err _ _ r => r
  | .spin _ r => r

/-- `[parse_api_player(player) for player in players_data]`: normalize every
item in order; the first exception aborts the whole page. -/
def mapParse {α : Type} (f : RawPlayer → Except PyError α) :
    List RawPlayer → Except PyError (List α)
  | [] => .ok []
  | p :: rest =>
    match f p with
    | .error e => .error e
    | .ok r =>
      match mapParse f rest with
      | .error e => .error e
      | .ok rs => .ok (r :: rs)

/-- After the loop: success clears the checkpoint slot and returns the
accumulated records; failure propagates with the checkpoint left intact. -/
def finishRun {α : Type} (gender : String) : FetchOutcome α → FetchOutcome α
  | .ok players st req => .ok players (clear_checkpoint st gender) req
  | .err e st req => .err e st req
  | .spin st req => .spin st req

namespace Legacy

/-- The pagination loop of `get_rankings` in `src/api_scraper.py`
(`while True` body, lines 141-196), with explicit fuel.  Each iteration:
check the page cap (`if max_pages and page > max_pages`), issue the request,
split the body into items and continuation flag — a keyed response reads
`players` with `data` as accepted alias and defaults `hasMore` to false, a
bare list infers `has_more` from `len == page_size`, any other type fails at
`len()` — stop on an empty page, normalize every item (a schema error aborts
the page), append, save the checkpoint, then stop unless `has_more` and a
full page. -/
def fetchLoop (server : ApiServer) (gender : String) (page_size : Nat)
    (max_pages : Option Nat) :
    Nat → Store LegacyPlayerRecord → List LegacyPlayerRecord → Nat → List Nat →
    FetchOutcome LegacyPlayerRecord
  | 0, st, _, _, req => .spin st req
  | fuel + 1, st, all_players, page, req =>
    if maxPagesTruthy max_pages && decide (max_pages.getD 0 < page) then
      .ok all_players st req
    else
      let req := req ++ [page]
      match server page with
      | .error m => .err (.transport m) st req
      | .ok raw_data =>
        let split : Except PyError (List RawPlayer × Bool) :=
          match raw_data with
          | .jdict d => .ok (d.players.getD (d.data.getD []), d.hasMore.getD false)
          | .jlist l => .ok (l, decide (l.length = page_size))
          | .jother => .error (.typeError "object of type has no len()")
        match split with
        | .error e => .err e st req
        | .ok (players_data, has_more) =>
          if players_data.isEmpty then .ok all_players st req
          else
            match mapParse parse_api_player players_data with
            | .error e => .err e st req
            | .ok parsed_players =>
              let all_players := all_players ++ parsed_players
              let st := save_checkpoint st gender page all_players
              if !has_more || decide (parsed_players.length < page_size) then
                .ok all_players st req
              else
                fetchLoop server gender page_size max_pages fuel st all_players (page + 1) req

/-- `get_rankings` from `src/api_scraper.py`: seed from the checkpoint when
`resume` is set and a checkpoint exists (continuing at `last_page + 1`),
run the pagination loop, and clear the checkpoint on success. -/
def get_rankings (server : ApiServer) (st0 : Store LegacyPlayerRecord)
    (gender : String) (page_size : Nat) (max_pages : Option Nat) (resume : Bool)
    (fuel : Nat) : FetchOutcome LegacyPlayerRecord :=
  let init : List LegacyPlayerRecord × Nat :=
    if resume then
      match load_checkpoint st0 gender with
      | some checkpoint => (checkpoint.players, checkpoint.last_page + 1)
      | none => ([], 1)
    else ([], 1)
  finishRun gender (fetchLoop server gender page_size max_pages fuel st0 init.1 init.2 [])

end Legacy

namespace Pkg

/-- The pagination loop of `get_rankings` in
`src/src/psa_squash_rankings/api_scraper.py` (lines 154-238), with explicit
fuel.  Unlike the legacy loop, a keyed response must carry both the `players`
key and the `hasMore` key (each absence raises `ValueError`), a bare list is
assumed to be the complete dataset (`has_more = False`), and any other
top-level type raises `ValueError`. -/
def fetchLoop (server : ApiServer) (gender : String) (page_size : Nat)
    (max_pages : Option Nat) :
    Nat → Store ApiPlayerRecord → List ApiPlayerRecord → Nat → List Nat →
    FetchOutcome ApiPlayerRecord
  | 0, st, _, _, req => .spin st req
  | fuel + 1, st, all_players, page, req =>
    if maxPagesTruthy max_pages && decide (max_pages.getD 0 < page) then
      .ok all_players st req
    else
      let req := req ++ [page]
      match server page with
      | .error m => .err (.transport m) st req
      | .ok raw_data =>
        let split : Except PyError (List RawPlayer × Bool) :=
          match raw_data with
          | .jdict d =>
            match d.players with
            | none => .error (.valueError ("API response missing required \x27players\x27 key. " ++
                "Got keys: " ++ toString d.keys))
            | some players_data =>
              match d.hasMore with
              | none => .error (.valueError ("API response missing required \x27hasMore\x27 key. " ++
                  "Cannot determine pagination state. Got keys: " ++ toString d.keys))
              | some hm => .ok (players_data, hm)
          | .jlist l => .ok (l, false)
          | .jother => .error (.valueError "Unexpected API response type. Expected dict or list.")
        match split with
        | .error e => .err e st req
        | .ok (players_data, has_more) =>
          if players_data.isEmpty then .ok all_players st req
          else
            match mapParse parse_api_player players_data with
            | .error e => .err e st req
            | .ok parsed_players =>
              let all_players := all_players ++ parsed_players
              let st := save_checkpoint st gender page all_players
              if !has_more then .ok all_players st req
              else if decide (parsed_players.length < page_size) then .ok all_players st req
              else fetchLoop server gender page_size max_pages fuel st all_players (page + 1) req

/-- `get_rankings` from `src/src/psa_squash_rankings/api_scraper.py`: the same
resume seeding and terminal checkpoint clearing as the legacy variant, around
the stricter loop. -/
def get_rankings (server : ApiServer) (st0 : Store ApiPlayerRecord)
    (gender : String) (page_size : Nat) (max_pages : Option Nat) (resume : Bool)
    (fuel : Nat) : FetchOutcome ApiPlayerRecord :=
  let init : List ApiPlayerRecord × Nat :=
    if resume then
      match load_checkpoint st0 gender with
      | some checkpoint => (checkpoint.players, checkpoint.last_page + 1)
      | none => ([], 1)
    else ([], 1)
  finishRun gender (fetchLoop server gender page_size max_pages fuel st0 init.1 init.2 [])

end Pkg

/-- `ScraperResult` from `src/schema.py`: either a complete API result or a
degraded HTML fallback result. -/
inductive ScraperResult where
  | api (records : List LegacyPlayerRecord)
  | html (records : List HtmlPlayerRecord)
deriving Repr, DecidableEq

/-- `scrape_gender` from `src/run_scraper.py` (lines 48-111): its two
collaborators (the paginated API fetch and the HTML fallback scrape) are
passed as their outcomes.  API success returns `(data, False)`.  On API
failure, only the male collection has a fallback; fallback success returns
`(data, True)`, fallback failure raises an `Exception` whose message embeds
both causes, and a collection without fallback raises an `Exception` whose
message embeds the API cause. -/
def scrape_gender (gender : String)
    (api_result : Except PyError (List LegacyPlayerRecord))
    (html_result : Except PyError (List HtmlPlayerRecord)) :
    Except PyError (ScraperResult × Bool) :=
  match api_result with
  | .ok data => .ok (.api data, false)
  | .error api_error =>
    if gender = "male" then
      match html_result with
      | .ok data => .ok (.html data, true)
      | .error html_error =>
        .error (.appError ("Both API and HTML scrapers failed for " ++ gender ++
          ". API error: " ++ api_error.message ++
          ". HTML error: " ++ html_error.message))
    else
      .error (.appError ("API scraper failed for " ++ gender ++
        " and no fallback available: " ++ api_error.message))

/-! ### Concrete data used by the witness theorems -/

/-- A well-formed raw player item with all required fields. -/
def wPlayer : RawPlayer :=
  { worldRanking := some (.vint 1), name := some (.vstr "Ali Farag"),
    id := some (.vint 12345), tournaments := some (.vint 12),
    totalPoints := some (.vint 20000) }

/-- `wPlayer` normalized by the legacy snapshot. -/
def wParsedL : LegacyPlayerRecord :=
  { rank := .vint 1, player := .vstr "Ali Farag", id := 12345, tournaments := 12,
    points := 20000, height_cm := .vstr "N/A", weight_kg := .vstr "N/A",
    birthdate := .vstr "N/A", country := .vstr "N/A" }

/-- `wPlayer` normalized by the packaged snapshot. -/
def wParsedP : ApiPlayerRecord :=
  { rank := .vint 1, player := .vstr "Ali Farag", id := 12345, tournaments := 12,
    points := 20000, height_cm := none, weight_kg := none, birthdate := none,
    country := none, source := "api" }

/-- Empty checkpoint store for legacy records. -/
def wStoreL : Store LegacyPlayerRecord := fun _ => none

/-- Empty checkpoint store for packaged records. -/
def wStoreP : Store ApiPlayerRecord := fun _ => none

/-- A server answering every page with one item and `hasMore = true`. -/
def wServerPartial : ApiServer :=
  fun _ => .ok (.jdict { players := some [wPlayer], data := none, hasMore := some true })

/-- A legacy checkpoint slot for the male collection at page 5. -/
def wCkptL : CheckpointData LegacyPlayerRecord :=
  { gender := "male", last_page := 5, total_players := 1, players := [wParsedL] }

/-- A packaged checkpoint slot for the male collection at page 5. -/
def wCkptP : CheckpointData ApiPlayerRecord :=
  { gender := "male", last_page := 5, total_players := 1, players := [wParsedP] }

/-- Legacy store holding `wCkptL` under the male key. -/
def wStoreCkptL : Store LegacyPlayerRecord := fun k => if k = "male" then some wCkptL else none

/-- Packaged store holding `wCkptP` under the male key. -/
def wStoreCkptP : Store ApiPlayerRecord := fun k => if k = "male" then some wCkptP else none

/-- A server whose keyed response is missing the items list. -/
def wServerNoPlayers : ApiServer :=
  fun _ => .ok (.jdict { players := none, data := none, hasMore := some true })

/-- A server whose keyed response is missing the continuation flag. -/
def wServerNoHasMore : ApiServer :=
  fun _ => .ok (.jdict { players := some [wPlayer], data := none, hasMore := none })

/-- A server answering with an unexpected top-level type. -/
def wServerOther : ApiServer := fun _ => .ok .jother

/-- A server answering every page with a bare one-item list. -/
def wServerList : ApiServer := fun _ => .ok (.jlist [wPlayer])

/-- A server answering every page with a bare empty list. -/
def wServerEmptyList : ApiServer := fun _ => .ok (.jlist [])

/-- A raw item missing the Name and Id fields. -/
def wPlayerMissing : RawPlayer :=
  { worldRanking := some (.vint 1), tournaments := some (.vint 12),
    totalPoints := some (.vint 20000) }

/-- Is this outcome a propagated error? -/
def FetchOutcome.isErr {α : Type} : FetchOutcome α → Bool
  | .err _ _ _ => true
  | _ => false

/-! ### Helper lemmas -/

theorem legacy_fetchLoop_zero_cap (server : ApiServer) (gender : String) (page_size : Nat) :
    ∀ (fuel : Nat) (st : Store LegacyPlayerRecord) (acc : List LegacyPlayerRecord)
      (page : Nat) (req : List Nat),
      Legacy.fetchLoop server gender page_size (some 0) fuel st acc page req =
      Legacy.fetchLoop server gender page_size none fuel st acc page req := by
  intro fuel
  induction fuel with
  | zero => intro st acc page req; rfl
  | succ n ih =>
    intro st acc page req
    simp only [Legacy.fetchLoop]
    have h1 : maxPagesTruthy (some 0) = false := rfl
    have h2 : maxPagesTruthy none = false := rfl
    rw [h1, h2]
    simp only [Bool.false_and, Bool.false_eq_true, if_false]
    cases hs : server page with
    | error m => rfl
    | ok raw_data =>
      cases raw_data with
      | jother => rfl
      | jdict d =>
        dsimp only
        split
        · rfl
        · split
          · rfl
          · split
            · rfl
            · exact ih _ _ _ _
      | jlist l =>
        dsimp only
        split
        · rfl
        · split
          · rfl
          · split
            · rfl
            · exact ih _ _ _ _


theorem mapParse_length {α : Type} (f : RawPlayer → Except PyError α) :
    ∀ (xs : List RawPlayer) (ys : List α), mapParse f xs = .ok ys → ys.length = xs.length := by
  intro xs
  induction xs with
  | nil => intro ys h; simp only [mapParse] at h; cases h; rfl
  | cons p rest ih =>
    intro ys h
    simp only [mapParse] at h
    cases hf : f p with
    | error e => rw [hf] at h; cases h
    | ok r =>
      rw [hf] at h
      cases hrest : mapParse f rest with
      | error e => rw [hrest] at h; cases h
      | ok rs =>
        rw [hrest] at h
        cases h
        simp [ih rs hrest]

/-- Claim C1: a partial page (fewer items than `page_size`) is appended and then the
fetch stops successfully, even when the response carries `hasMore = true`;
this holds of both scraper snapshots at any point of the loop where the page
cap has not preempted the request. -/
theorem fetch_partial_page_overrides_hasMore (server : ApiServer) (gender : String)
    (page_size : Nat) (max_pages : Option Nat) (fuel page : Nat)
    (st : Store LegacyPlayerRecord) (acc parsed : List LegacyPlayerRecord)
    (stP : Store ApiPlayerRecord) (accP parsedP : List ApiPlayerRecord)
    (req reqP : List Nat) (items : List RawPlayer) (dta : Option (List RawPlayer))
    (hcap : (maxPagesTruthy max_pages && decide (max_pages.getD 0 < page)) = false)
    (hs : server page = .ok (.jdict { players := some items, data := dta, hasMore := some true }))
    (hne : items.isEmpty = false)
    (hmap : mapParse Legacy.parse_api_player items = .ok parsed)
    (hlt : parsed.length < page_size)
    (hmapP : mapParse Pkg.parse_api_player items = .ok parsedP)
    (hltP : parsedP.length < page_size) :
    Legacy.fetchLoop server gender page_size max_pages (fuel + 1) st acc page req =
      .ok (acc ++ parsed) (save_checkpoint st gender page (acc ++ parsed)) (req ++ [page]) ∧
    Pkg.fetchLoop server gender page_size max_pages (fuel + 1) stP accP page reqP =
      .ok (accP ++ parsedP) (save_checkpoint stP gender page (accP ++ parsedP)) (reqP ++ [page]) := by
  constructor
  · simp only [Legacy.fetchLoop, hcap, Bool.false_eq_true, if_false, hs]
    simp only [Option.getD_some, hne, Bool.false_eq_true, if_false, hmap]
    simp only [decide_eq_true hlt, Bool.or_true, if_true]
  · simp only [Pkg.fetchLoop, hcap, Bool.false_eq_true, if_false, hs]
    simp only [hne, Bool.false_eq_true, if_false, hmapP]
    simp only [decide_eq_true hltP, Bool.not_true, Bool.false_eq_true, if_false, if_true]

/-- Claim C4: the packaged fetch raises a hard `ValueError` on a keyed response
missing the items list or the continuation flag, and on an unexpected
top-level response type, instead of treating any of them as an empty or last
page. -/
theorem pkg_malformed_response_is_hard_error (server : ApiServer) (gender : String)
    (page_size : Nat) (max_pages : Option Nat) (fuel page : Nat)
    (st : Store ApiPlayerRecord) (acc : List ApiPlayerRecord) (req : List Nat)
    (hcap : (maxPagesTruthy max_pages && decide (max_pages.getD 0 < page)) = false) :
    (∀ dta hm, server page = .ok (.jdict { players := none, data := dta, hasMore := hm }) →
      Pkg.fetchLoop server gender page_size max_pages (fuel + 1) st acc page req =
        .err (.valueError ("API response missing required \x27players\x27 key. " ++
          "Got keys: " ++ toString (JDict.keys { players := none, data := dta, hasMore := hm })))
          st (req ++ [page])) ∧
    (∀ items dta,
      server page = .ok (.jdict { players := some items, data := dta, hasMore := none }) →
      Pkg.fetchLoop server gender page_size max_pages (fuel + 1) st acc page req =
        .err (.valueError ("API response missing required \x27hasMore\x27 key. " ++
          "Cannot determine pagination state. Got keys: " ++
          toString (JDict.keys { players := some items, data := dta, hasMore := none })))
          st (req ++ [page])) ∧
    (server page = .ok .jother →
      Pkg.fetchLoop server gender page_size max_pages (fuel + 1) st acc page req =
        .err (.valueError "Unexpected API response type. Expected dict or list.")
          st (req ++ [page])) := by
  refine ⟨?_, ?_, ?_⟩
  · intro dta hm hs
    simp only [Pkg.fetchLoop, hcap, Bool.false_eq_true, if_false, hs]
  · intro items dta hs
    simp only [Pkg.fetchLoop, hcap, Bool.false_eq_true, if_false, hs]
  · intro hs
    simp only [Pkg.fetchLoop, hcap, Bool.false_eq_true, if_false, hs]

/-- Claim C5: on a bare-list response the legacy fetch infers continuation purely
from the page-size comparison: a full page continues to the next page, any
other count stops (after appending when the page was non-empty). -/
theorem legacy_bare_list_infers_continuation (server : ApiServer) (gender : String)
    (page_size : Nat) (max_pages : Option Nat) (fuel page : Nat)
    (st : Store LegacyPlayerRecord) (acc parsed : List LegacyPlayerRecord)
    (req : List Nat) (items : List RawPlayer)
    (hcap : (maxPagesTruthy max_pages && decide (max_pages.getD 0 < page)) = false)
    (hs : server page = .ok (.jlist items))
    (hmap : mapParse Legacy.parse_api_player items = .ok parsed)
    (hps : 0 < page_size) :
    (items.length = page_size →
      Legacy.fetchLoop server gender page_size max_pages (fuel + 1) st acc page req =
        Legacy.fetchLoop server gender page_size max_pages fuel
          (save_checkpoint st gender page (acc ++ parsed)) (acc ++ parsed)
          (page + 1) (req ++ [page])) ∧
    (items.length ≠ page_size → items ≠ [] →
      Legacy.fetchLoop server gender page_size max_pages (fuel + 1) st acc page req =
        .ok (acc ++ parsed) (save_checkpoint st gender page (acc ++ parsed))
          (req ++ [page])) ∧
    (items = [] →
      Legacy.fetchLoop server gender page_size max_pages (fuel + 1) st acc page req =
        .ok acc st (req ++ [page])) := by
  refine ⟨?_, ?_, ?_⟩
  · intro hfull
    have hne : items.isEmpty = false := by
      cases items with
      | nil => simp at hfull; omega
      | cons a b => rfl
    have hplen : parsed.length = page_size := by
      rw [mapParse_length Legacy.parse_api_player items parsed hmap, hfull]
    simp only [Legacy.fetchLoop, hcap, Bool.false_eq_true, if_false, hs]
    simp only [hne, Bool.false_eq_true, if_false, hmap]
    simp only [decide_eq_true hfull, Bool.not_true, Bool.false_or]
    simp only [hplen, decide_False, Bool.false_eq_true, if_false, decide_eq_true_eq, lt_irrefl]
  · intro hnefull hne0
    have hne : items.isEmpty = false := by cases items with
      | nil => exact absurd rfl hne0
      | cons a b => rfl
    have hmore : decide (items.length = page_size) = false := decide_eq_false hnefull
    simp only [Legacy.fetchLoop, hcap, Bool.false_eq_true, if_false, hs]
    simp only [hne, Bool.false_eq_true, if_false, hmap]
    simp only [hmore, Bool.not_false, Bool.true_or, if_true]
  · intro h0
    subst h0
    simp only [Legacy.fetchLoop, hcap, Bool.false_eq_true, if_false, hs]
    simp only [List.isEmpty_nil, if_true]

theorem pkg_fetchLoop_zero_cap (server : ApiServer) (gender : String) (page_size : Nat) :
    ∀ (fuel : Nat) (st : Store ApiPlayerRecord) (acc : List ApiPlayerRecord)
      (page : Nat) (req : List Nat),
      Pkg.fetchLoop server gender page_size (some 0) fuel st acc page req =
      Pkg.fetchLoop server gender page_size none fuel st acc page req := by
  intro fuel
  induction fuel with
  | zero => intro st acc page req; rfl
  | succ n ih =>
    intro st acc page req
    simp only [Pkg.fetchLoop]
    have h1 : maxPagesTruthy (some 0) = false := rfl
    have h2 : maxPagesTruthy none = false := rfl
    rw [h1, h2]
    simp only [Bool.false_and, Bool.false_eq_true, if_false]
    cases hs : server page with
    | error m => rfl
    | ok raw_data =>
      cases raw_data with
      | jother => rfl
      | jdict d =>
        dsimp only
        split
        · rfl
        · split
          · rfl
          · split
            · rfl
            · split
              · rfl
              · split
                · rfl
                · exact ih _ _ _ _
      | jlist l =>
        dsimp only
        split
        · rfl
        · split
          · rfl
          · split
            · rfl
            · split
              · rfl
              · exact ih _ _ _ _

/-- Claim C10: `max_pages = 0` behaves exactly like an absent cap in both scraper
snapshots: the whole run is the same as with `max_pages = None`, so the fetch
retrieves all available pages rather than stopping before the first one. -/
theorem get_rankings_zero_max_pages_means_no_cap (server serverP : ApiServer)
    (st0 : Store LegacyPlayerRecord) (stP : Store ApiPlayerRecord) (gender : String)
    (page_size : Nat) (resume : Bool) (fuel : Nat) :
    Legacy.get_rankings server st0 gender page_size (some 0) resume fuel =
      Legacy.get_rankings server st0 gender page_size none resume fuel ∧
    Pkg.get_rankings serverP stP gender page_size (some 0) resume fuel =
      Pkg.get_rankings serverP stP gender page_size none resume fuel := by
  constructor
  · simp only [Legacy.get_rankings, legacy_fetchLoop_zero_cap]
  · simp only [Pkg.get_rankings, pkg_fetchLoop_zero_cap]

/-- Claim C3: `save(key, page, recs)` followed immediately by `load(key)` yields a
state whose `lastCompletedPage` equals `page` and whose `accumulatedRecords`
equals `recs`, with exact sequence equality. -/
theorem checkpoint_save_then_load_roundtrip {α : Type} (st : Store α) (key : String)
    (page : Nat) (recs : List α) :
    ∃ cp : CheckpointData α,
      load_checkpoint (save_checkpoint st key page recs) key = some cp ∧
      cp.last_page = page ∧ cp.players = recs := by
  exact ⟨{ gender := key, last_page := page, total_players := recs.length, players := recs },
    by simp [load_checkpoint, save_checkpoint], rfl, rfl⟩

theorem finishRun_requested {α : Type} (gender : String) (x : FetchOutcome α) :
    (finishRun gender x).requested = x.requested := by
  cases x <;> rfl

theorem legacy_requested_extends (server : ApiServer) (gender : String) (page_size : Nat)
    (max_pages : Option Nat) :
    ∀ (fuel : Nat) (st : Store LegacyPlayerRecord) (acc : List LegacyPlayerRecord)
      (page : Nat) (req : List Nat), ∃ ext : List Nat,
      (Legacy.fetchLoop server gender page_size max_pages fuel st acc page req).requested
        = req ++ ext := by
  intro fuel
  induction fuel with
  | zero => intro st acc page req; exact ⟨[], by simp [Legacy.fetchLoop, FetchOutcome.requested]⟩
  | succ n ih =>
    intro st acc page req
    simp only [Legacy.fetchLoop]
    split
    · exact ⟨[], by simp [FetchOutcome.requested]⟩
    · cases hs : server page with
      | error m => exact ⟨[page], rfl⟩
      | ok raw_data =>
        cases raw_data with
        | jother => exact ⟨[page], rfl⟩
        | jdict d =>
          dsimp only
          split
          · exact ⟨[page], rfl⟩
          · split
            · exact ⟨[page], rfl⟩
            · split
              · exact ⟨[page], rfl⟩
              · obtain ⟨ext2, h⟩ := ih _ _ _ (req ++ [page])
                exact ⟨page :: ext2, by rw [h]; simp⟩
        | jlist l =>
          dsimp only
          split
          · exact ⟨[page], rfl⟩
          · split
            · exact ⟨[page], rfl⟩
            · split
              · exact ⟨[page], rfl⟩
              · obtain ⟨ext2, h⟩ := ih _ _ _ (req ++ [page])
                exact ⟨page :: ext2, by rw [h]; simp⟩

theorem legacy_first_request (server : ApiServer) (gender : String) (page_size : Nat)
    (fuel : Nat) (st : Store LegacyPlayerRecord) (acc : List LegacyPlayerRecord)
    (page : Nat) (req : List Nat) :
    ∃ rest : List Nat,
      (Legacy.fetchLoop server gender page_size none (fuel + 1) st acc page req).requested
        = req ++ page :: rest := by
  simp only [Legacy.fetchLoop]
  simp only [show maxPagesTruthy none = false from rfl, Bool.false_and, Bool.false_eq_true,
    if_false]
  cases hs : server page with
  | error m => exact ⟨[], rfl⟩
  | ok raw_data =>
    cases raw_data with
    | jother => exact ⟨[], rfl⟩
    | jdict d =>
      dsimp only
      split
      · exact ⟨[], rfl⟩
      · split
        · exact ⟨[], rfl⟩
        · split
          · exact ⟨[], rfl⟩
          · obtain ⟨ext2, h⟩ := legacy_requested_extends server gender page_size none
              fuel _ _ _ (req ++ [page])
            exact ⟨ext2, by rw [h]; simp⟩
    | jlist l =>
      dsimp only
      split
      · exact ⟨[], rfl⟩
      · split
        · exact ⟨[], rfl⟩
        · split
          · exact ⟨[], rfl⟩
          · obtain ⟨ext2, h⟩ := legacy_requested_extends server gender page_size none
              fuel _ _ _ (req ++ [page])
            exact ⟨ext2, by rw [h]; simp⟩

theorem pkg_requested_extends (server : ApiServer) (gender : String) (page_size : Nat)
    (max_pages : Option Nat) :
    ∀ (fuel : Nat) (st : Store ApiPlayerRecord) (acc : List ApiPlayerRecord)
      (page : Nat) (req : List Nat), ∃ ext : List Nat,
      (Pkg.fetchLoop server gender page_size max_pages fuel st acc page req).requested
        = req ++ ext := by
  intro fuel
  induction fuel with
  | zero => intro st acc page req; exact ⟨[], by simp [Pkg.fetchLoop, FetchOutcome.requested]⟩
  | succ n ih =>
    intro st acc page req
    simp only [Pkg.fetchLoop]
    split
    · exact ⟨[], by simp [FetchOutcome.requested]⟩
    · cases hs : server page with
      | error m => exact ⟨[page], rfl⟩
      | ok raw_data =>
        cases raw_data with
        | jother => exact ⟨[page], rfl⟩
        | jdict d =>
          dsimp only
          split
          · exact ⟨[page], rfl⟩
          · split
            · exact ⟨[page], rfl⟩
            · split
              · exact ⟨[page], rfl⟩
              · split
                · exact ⟨[page], rfl⟩
                · split
                  · exact ⟨[page], rfl⟩
                  · obtain ⟨ext2, h⟩ := ih _ _ _ (req ++ [page])
                    exact ⟨page :: ext2, by rw [h]; simp⟩
        | jlist l =>
          dsimp only
          split
          · exact ⟨[page], rfl⟩
          · split
            · exact ⟨[page], rfl⟩
            · split
              · exact ⟨[page], rfl⟩
              · split
                · exact ⟨[page], rfl⟩
                · obtain ⟨ext2, h⟩ := ih _ _ _ (req ++ [page])
                  exact ⟨page :: ext2, by rw [h]; simp⟩

theorem pkg_first_request (server : ApiServer) (gender : String) (page_size : Nat)
    (fuel : Nat) (st : Store ApiPlayerRecord) (acc : List ApiPlayerRecord)
    (page : Nat) (req : List Nat) :
    ∃ rest : List Nat,
      (Pkg.fetchLoop server gender page_size none (fuel + 1) st acc page req).requested
        = req ++ page :: rest := by
  simp only [Pkg.fetchLoop]
  simp only [show maxPagesTruthy none = false from rfl, Bool.false_and, Bool.false_eq_true,
    if_false]
  cases hs : server page with
  | error m => exact ⟨[], rfl⟩
  | ok raw_data =>
    cases raw_data with
    | jother => exact ⟨[], rfl⟩
    | jdict d =>
      dsimp only
      split
      · exact ⟨[], rfl⟩
      · split
        · exact ⟨[], rfl⟩
        · split
          · exact ⟨[], rfl⟩
          · split
            · exact ⟨[], rfl⟩
            · split
              · exact ⟨[], rfl⟩
              · obtain ⟨ext2, h⟩ := pkg_requested_extends server gender page_size none
                  fuel _ _ _ (req ++ [page])
                exact ⟨ext2, by rw [h]; simp⟩
    | jlist l =>
      dsimp only
      split
      · exact ⟨[], rfl⟩
      · split
        · exact ⟨[], rfl⟩
        · split
          · exact ⟨[], rfl⟩
          · split
            · exact ⟨[], rfl⟩
            · obtain ⟨ext2, h⟩ := pkg_requested_extends server gender page_size none
                fuel _ _ _ (req ++ [page])
              exact ⟨ext2, by rw [h]; simp⟩

/-- Claim C2: with `resume = true` and an existing checkpoint, both scraper
snapshots seed the accumulated records from the checkpoint and request
`last_page + 1` first (never page 1 for a checkpoint recorded after a
successful page); with no checkpoint, they start at page 1 with empty
accumulation. -/
theorem get_rankings_resume_seeds_from_checkpoint (server serverP : ApiServer)
    (st0 : Store LegacyPlayerRecord) (stP : Store ApiPlayerRecord) (gender : String)
    (page_size : Nat) (max_pages : Option Nat) (fuel : Nat)
    (cp : CheckpointData LegacyPlayerRecord) (cpP : CheckpointData ApiPlayerRecord) :
    (load_checkpoint st0 gender = some cp →
      Legacy.get_rankings server st0 gender page_size max_pages true fuel =
        finishRun gender (Legacy.fetchLoop server gender page_size max_pages fuel st0
          cp.players (cp.last_page + 1) []) ∧
      (Legacy.get_rankings server st0 gender page_size none true (fuel + 1)).requested.head? =
        some (cp.last_page + 1) ∧
      (1 ≤ cp.last_page →
        (Legacy.get_rankings server st0 gender page_size none true (fuel + 1)).requested.head? ≠
          some 1)) ∧
    (load_checkpoint st0 gender = none →
      Legacy.get_rankings server st0 gender page_size max_pages true fuel =
        finishRun gender (Legacy.fetchLoop server gender page_size max_pages fuel st0 [] 1 []) ∧
      (Legacy.get_rankings server st0 gender page_size none true (fuel + 1)).requested.head? =
        some 1) ∧
    (load_checkpoint stP gender = some cpP →
      Pkg.get_rankings serverP stP gender page_size max_pages true fuel =
        finishRun gender (Pkg.fetchLoop serverP gender page_size max_pages fuel stP
          cpP.players (cpP.last_page + 1) []) ∧
      (Pkg.get_rankings serverP stP gender page_size none true (fuel + 1)).requested.head? =
        some (cpP.last_page + 1) ∧
      (1 ≤ cpP.last_page →
        (Pkg.get_rankings serverP stP gender page_size none true (fuel + 1)).requested.head? ≠
          some 1)) ∧
    (load_checkpoint stP gender = none →
      Pkg.get_rankings serverP stP gender page_size max_pages true fuel =
        finishRun gender (Pkg.fetchLoop serverP gender page_size max_pages fuel stP [] 1 []) ∧
      (Pkg.get_rankings serverP stP gender page_size none true (fuel + 1)).requested.head? =
        some 1) := by
  refine ⟨?_, ?_, ?_, ?_⟩
  · intro h
    have hrun : ∀ mp fl, Legacy.get_rankings server st0 gender page_size mp true fl =
        finishRun gender (Legacy.fetchLoop server gender page_size mp fl st0
          cp.players (cp.last_page + 1) []) := by
      intro mp fl
      simp only [Legacy.get_rankings, h, if_true]
    refine ⟨hrun max_pages fuel, ?_, ?_⟩
    · rw [hrun none (fuel + 1), finishRun_requested]
      obtain ⟨rest, hr⟩ := legacy_first_request server gender page_size fuel st0
        cp.players (cp.last_page + 1) []
      rw [hr]
      rfl
    · intro h1 habs
      rw [hrun none (fuel + 1), finishRun_requested] at habs
      obtain ⟨rest, hr⟩ := legacy_first_request server gender page_size fuel st0
        cp.players (cp.last_page + 1) []
      rw [hr] at habs
      simp only [List.nil_append, List.head?_cons, Option.some.injEq] at habs
      omega
  · intro h
    have hrun : ∀ mp fl, Legacy.get_rankings server st0 gender page_size mp true fl =
        finishRun gender (Legacy.fetchLoop server gender page_size mp fl st0 [] 1 []) := by
      intro mp fl
      simp only [Legacy.get_rankings, h, if_true]
    refine ⟨hrun max_pages fuel, ?_⟩
    rw [hrun none (fuel + 1), finishRun_requested]
    obtain ⟨rest, hr⟩ := legacy_first_request server gender page_size fuel st0 [] 1 []
    rw [hr]
    rfl
  · intro h
    have hrun : ∀ mp fl, Pkg.get_rankings serverP stP gender page_size mp true fl =
        finishRun gender (Pkg.fetchLoop serverP gender page_size mp fl stP
          cpP.players (cpP.last_page + 1) []) := by
      intro mp fl
      simp only [Pkg.get_rankings, h, if_true]
    refine ⟨hrun max_pages fuel, ?_, ?_⟩
    · rw [hrun none (fuel + 1), finishRun_requested]
      obtain ⟨rest, hr⟩ := pkg_first_request serverP gender page_size fuel stP
        cpP.players (cpP.last_page + 1) []
      rw [hr]
      rfl
    · intro h1 habs
      rw [hrun none (fuel + 1), finishRun_requested] at habs
      obtain ⟨rest, hr⟩ := pkg_first_request serverP gender page_size fuel stP
        cpP.players (cpP.last_page + 1) []
      rw [hr] at habs
      simp only [List.nil_append, List.head?_cons, Option.some.injEq] at habs
      omega
  · intro h
    have hrun : ∀ mp fl, Pkg.get_rankings serverP stP gender page_size mp true fl =
        finishRun gender (Pkg.fetchLoop serverP gender page_size mp fl stP [] 1 []) := by
      intro mp fl
      simp only [Pkg.get_rankings, h, if_true]
    refine ⟨hrun max_pages fuel, ?_⟩
    rw [hrun none (fuel + 1), finishRun_requested]
    obtain ⟨rest, hr⟩ := pkg_first_request serverP gender page_size fuel stP [] 1 []
    rw [hr]
    rfl

theorem digitGroups_eq_nil_of_filterDigits_nil :
    ∀ cs : List Char, filterDigits cs = [] → digitGroups cs = [] := by
  intro cs
  induction cs with
  | nil => intro _; rfl
  | cons c rest ih =>
    intro h
    simp only [filterDigits, List.filter_cons] at h
    by_cases hc : c.isDigit
    · rw [if_pos hc] at h; cases h
    · rw [if_neg hc] at h
      simp only [digitGroups, hc, Bool.false_eq_true, if_false]
      exact ih h

/-- Claim C6: normalization of an item missing any required source field fails, in
both scraper snapshots, with a schema error carrying exactly the set of
required fields absent from the item: the set difference of
`REQUIRED_API_FIELDS` minus the present keys, no more and no fewer. -/
theorem normalize_error_names_exactly_missing_fields (p : RawPlayer)
    (hmiss : missing_fields p ≠ []) :
    Legacy.parse_api_player p = .error (.schemaError (missing_fields p)) ∧
    Pkg.parse_api_player p = .error (.schemaError (missing_fields p)) ∧
    ∀ f : String, f ∈ missing_fields p ↔ (f ∈ REQUIRED_API_FIELDS ∧ f ∉ p.keys) := by
  have hval : validate_api_schema p = .error (.schemaError (missing_fields p)) := by
    simp [validate_api_schema, List.isEmpty_iff, hmiss]
  refine ⟨?_, ?_, ?_⟩
  · simp only [Legacy.parse_api_player, hval]
    rfl
  · simp only [Pkg.parse_api_player, hval]
    rfl
  · intro f
    simp [missing_fields, List.mem_filter]

/-- Claim C7: when the primary fetch fails, `scrape_gender` propagates a single
composite error whose message embeds the primary cause, and — when the
degraded HTML path exists (male) and was attempted — the secondary cause as
well. -/
theorem resolve_failure_propagates_both_causes (gender : String)
    (api_result : Except PyError (List LegacyPlayerRecord))
    (html_result : Except PyError (List HtmlPlayerRecord))
    (api_error : PyError) (hapi : api_result = .error api_error) :
    (gender = "male" → ∀ html_error : PyError, html_result = .error html_error →
      ∃ msg : String, scrape_gender gender api_result html_result = .error (.appError msg) ∧
        (∃ a b : String, msg = a ++ api_error.message ++ b) ∧
        (∃ a b : String, msg = a ++ html_error.message ++ b)) ∧
    (gender ≠ "male" →
      ∃ msg : String, scrape_gender gender api_result html_result = .error (.appError msg) ∧
        ∃ a b : String, msg = a ++ api_error.message ++ b) := by
  constructor
  · intro hg html_error hhtml
    subst hg
    refine ⟨"Both API and HTML scrapers failed for " ++ "male" ++ ". API error: " ++
      api_error.message ++ ". HTML error: " ++ html_error.message, ?_, ?_, ?_⟩
    · simp [scrape_gender, hapi, hhtml]
    · refine ⟨"Both API and HTML scrapers failed for " ++ "male" ++ ". API error: ",
        ". HTML error: " ++ html_error.message, ?_⟩
      simp [String.append_assoc]
    · refine ⟨"Both API and HTML scrapers failed for " ++ "male" ++ ". API error: " ++
        api_error.message ++ ". HTML error: ", "", ?_⟩
      simp [String.append_assoc]
  · intro hg
    refine ⟨"API scraper failed for " ++ gender ++ " and no fallback available: " ++
      api_error.message, ?_, ?_⟩
    · simp [scrape_gender, hapi, hg]
    · refine ⟨"API scraper failed for " ++ gender ++ " and no fallback available: ", "", ?_⟩
      simp [String.append_assoc]

/-- Claim C8: an imperial input with two numeric groups converts to centimeters by
rounding `(feet*12 + inches) * 2.54` (here in exact scaled arithmetic:
`(feet*12 + inches) * 254 / 100`), a single numeric group with a feet marker
converts by rounding `value * 30.48`, and in particular `6' 1"` parses to
185 cm. -/
theorem parse_measure_imperial_conversion (value : PyVal) (unit_label : String)
    (htr : value.truthy = true)
    (himp : (chSub [Char.ofNat 39] (lowerChars (pyStrip value.str.data)) ||
      chSub [Char.ofNat 102, Char.ofNat 116] (lowerChars (pyStrip value.str.data))) = true) :
    (∀ f i rest, digitGroups (lowerChars (pyStrip value.str.data)) = f :: i :: rest →
      Pkg.parse_measure value unit_label =
        .ok (some (roundHalfEven (((digitsVal f : Int) * 12 + (digitsVal i : Int)) * 254) 100))) ∧
    (∀ g, digitGroups (lowerChars (pyStrip value.str.data)) = [g] →
      Pkg.parse_measure value unit_label =
        .ok (some (roundHalfEven ((digitsVal g : Int) * 3048) 100))) ∧
    Pkg.parse_measure (.vstr "6\x27 1\"") "Height" = .ok (some 185) := by
  refine ⟨?_, ?_, by rfl⟩
  · intro f i rest hgr
    have hnil : pyStrip value.str.data ≠ [] := by
      intro h0
      rw [h0] at hgr
      cases hgr
    have hstrip : (pyStrip value.str.data).isEmpty = false := by
      cases h : (pyStrip value.str.data).isEmpty
      · rfl
      · exact absurd (List.isEmpty_iff.mp h) hnil
    have hlen : decide (2 ≤ (digitGroups (lowerChars (pyStrip value.str.data))).length) = true := by
      rw [hgr]
      simp
    simp only [Pkg.parse_measure, htr, Bool.not_true, hstrip, Bool.or_false, Bool.false_eq_true,
      if_false, himp, hlen, Bool.and_self, if_true, hgr, List.headD_cons, List.drop_succ_cons,
      List.drop_zero]
    have h2 : 2 ≤ (f :: i :: rest).length := by
      simp only [List.length_cons]
      omega
    simp only [decide_eq_true h2, Bool.true_and, if_true]
  · intro g hgr
    have hnil : pyStrip value.str.data ≠ [] := by
      intro h0
      rw [h0] at hgr
      cases hgr
    have hstrip : (pyStrip value.str.data).isEmpty = false := by
      cases h : (pyStrip value.str.data).isEmpty
      · rfl
      · exact absurd (List.isEmpty_iff.mp h) hnil
    have hlen : decide (2 ≤ (digitGroups (lowerChars (pyStrip value.str.data))).length) = false := by
      rw [hgr]
      simp
    have hlen1 : ((digitGroups (lowerChars (pyStrip value.str.data))).length == 1) = true := by
      rw [hgr]
      rfl
    simp only [Pkg.parse_measure, htr, Bool.not_true, hstrip, Bool.or_false, Bool.false_eq_true,
      if_false, himp, hlen, hlen1, Bool.and_false, Bool.and_self, if_true, hgr, List.headD_cons]
    simp

/-- Claim C9: a falsy or blank measurement value parses to `None` without raising;
a non-blank value containing no digit characters at all raises, in both
snapshots, a `ValueError` naming the unit label and the raw value (the
packaged variant names the lowercased stripped value, the legacy variant the
raw string). -/
theorem parse_measure_blank_and_no_numeric (unit_label : String) (s : String) :
    Pkg.parse_measure .vnone unit_label = .ok none ∧
    ((pyStrip s.data).isEmpty = true → Pkg.parse_measure (.vstr s) unit_label = .ok none) ∧
    (s.isEmpty = false → (pyStrip s.data).isEmpty = false →
      filterDigits (lowerChars (pyStrip s.data)) = [] →
      Pkg.parse_measure (.vstr s) unit_label =
        .error (.valueError ("No numeric data found for " ++ unit_label ++ ": \x27" ++
          String.mk (lowerChars (pyStrip s.data)) ++ "\x27"))) ∧
    (s.isEmpty = false → (pyStrip s.data).isEmpty = false →
      filterDigits s.data = [] →
      Legacy.parse_measure (.vstr s) unit_label =
        .error (.valueError ("Invalid format for " ++ unit_label ++ ": \x27" ++ s ++
          "\x27. Expected numeric value (e.g., \x27185cm\x27 or \x27185\x27)."))) := by
  refine ⟨by rfl, ?_, ?_, ?_⟩
  · intro hblank
    simp only [Pkg.parse_measure, PyVal.str, hblank, Bool.or_true, if_true]
  · intro hse hstrip hfd
    have hgr : digitGroups (lowerChars (pyStrip s.data)) = [] :=
      digitGroups_eq_nil_of_filterDigits_nil _ hfd
    have hfde : (filterDigits (lowerChars (pyStrip s.data))).isEmpty = true := by
      rw [hfd]
      rfl
    simp only [Pkg.parse_measure, PyVal.truthy, PyVal.str, hse, Bool.not_false, Bool.not_true,
      hstrip, Bool.or_false, Bool.false_eq_true, if_false, hgr, List.length_nil, hfde,
      Bool.and_false, Bool.not_true, Bool.false_eq_true, if_false]
    simp [hfd]
  · intro hse hstrip hfd
    have hfde : (filterDigits s.data).isEmpty = true := by
      rw [hfd]
      rfl
    simp only [Legacy.parse_measure, PyVal.truthy, PyVal.str, hse, Bool.not_false, Bool.not_true,
      hstrip, Bool.or_false, Bool.false_eq_true, if_false, hfde, if_true]

/-- Witness for claim C1: one page of 1 item with `pageSize = 50` and
`hasMore = true` is appended and the fetch stops. -/
theorem fetch_partial_page_overrides_hasMore_witness :
    Legacy.fetchLoop wServerPartial "male" 50 none 1 wStoreL [] 1 [] =
      .ok ([] ++ [wParsedL]) (save_checkpoint wStoreL "male" 1 ([] ++ [wParsedL])) ([] ++ [1]) ∧
    Pkg.fetchLoop wServerPartial "male" 50 none 1 wStoreP [] 1 [] =
      .ok ([] ++ [wParsedP]) (save_checkpoint wStoreP "male" 1 ([] ++ [wParsedP])) ([] ++ [1]) :=
  fetch_partial_page_overrides_hasMore wServerPartial "male" 50 none 0 1 wStoreL [] [wParsedL]
    wStoreP [] [wParsedP] [] [] [wPlayer] none rfl rfl rfl rfl (by decide) rfl (by decide)

/-- Witness for claim C2: with a checkpoint at page 5, the first request of a
resumed run is page 6; with no checkpoint, it is page 1. -/
theorem get_rankings_resume_seeds_from_checkpoint_witness :
    (Legacy.get_rankings wServerPartial wStoreCkptL "male" 50 none true 1).requested.head? =
      some (wCkptL.last_page + 1) ∧
    (Legacy.get_rankings wServerPartial wStoreL "male" 50 none true 1).requested.head? =
      some 1 ∧
    (Pkg.get_rankings wServerPartial wStoreCkptP "male" 50 none true 1).requested.head? =
      some (wCkptP.last_page + 1) ∧
    (Pkg.get_rankings wServerPartial wStoreP "male" 50 none true 1).requested.head? =
      some 1 := by
  refine ⟨?_, ?_, ?_, ?_⟩
  · exact ((get_rankings_resume_seeds_from_checkpoint wServerPartial wServerPartial wStoreCkptL
      wStoreCkptP "male" 50 none 0 wCkptL wCkptP).1 rfl).2.1
  · exact (((get_rankings_resume_seeds_from_checkpoint wServerPartial wServerPartial wStoreL
      wStoreCkptP "male" 50 none 0 wCkptL wCkptP).2).1 rfl).2
  · exact ((get_rankings_resume_seeds_from_checkpoint wServerPartial wServerPartial wStoreCkptL
      wStoreCkptP "male" 50 none 0 wCkptL wCkptP).2.2.1 rfl).2.1
  · exact ((get_rankings_resume_seeds_from_checkpoint wServerPartial wServerPartial wStoreCkptL
      wStoreP "male" 50 none 0 wCkptL wCkptP).2.2.2 rfl).2

/-- Witness for claim C4: each malformed response shape aborts the packaged
fetch with a `ValueError`. -/
theorem pkg_malformed_response_is_hard_error_witness :
    Pkg.fetchLoop wServerNoPlayers "male" 50 none 1 wStoreP [] 1 [] =
      .err (.valueError ("API response missing required \x27players\x27 key. " ++
        "Got keys: " ++
        toString (JDict.keys { players := none, data := none, hasMore := some true })))
        wStoreP ([] ++ [1]) ∧
    Pkg.fetchLoop wServerNoHasMore "male" 50 none 1 wStoreP [] 1 [] =
      .err (.valueError ("API response missing required \x27hasMore\x27 key. " ++
        "Cannot determine pagination state. Got keys: " ++
        toString (JDict.keys { players := some [wPlayer], data := none, hasMore := none })))
        wStoreP ([] ++ [1]) ∧
    Pkg.fetchLoop wServerOther "male" 50 none 1 wStoreP [] 1 [] =
      .err (.valueError "Unexpected API response type. Expected dict or list.")
        wStoreP ([] ++ [1]) := by
  refine ⟨?_, ?_, ?_⟩
  · exact (pkg_malformed_response_is_hard_error wServerNoPlayers "male" 50 none 0 1 wStoreP []
      [] rfl).1 none (some true) rfl
  · exact (pkg_malformed_response_is_hard_error wServerNoHasMore "male" 50 none 0 1 wStoreP []
      [] rfl).2.1 [wPlayer] none rfl
  · exact (pkg_malformed_response_is_hard_error wServerOther "male" 50 none 0 1 wStoreP []
      [] rfl).2.2 rfl

/-- Witness for claim C5: a bare full page (1 item, `pageSize = 1`) continues
to page 2; a bare partial page (1 item, `pageSize = 50`) stops after
appending; a bare empty page stops with nothing appended. -/
theorem legacy_bare_list_infers_continuation_witness :
    Legacy.fetchLoop wServerList "male" 1 none 1 wStoreL [] 1 [] =
      Legacy.fetchLoop wServerList "male" 1 none 0
        (save_checkpoint wStoreL "male" 1 ([] ++ [wParsedL])) ([] ++ [wParsedL]) 2 ([] ++ [1]) ∧
    Legacy.fetchLoop wServerList "male" 50 none 1 wStoreL [] 1 [] =
      .ok ([] ++ [wParsedL]) (save_checkpoint wStoreL "male" 1 ([] ++ [wParsedL])) ([] ++ [1]) ∧
    Legacy.fetchLoop wServerEmptyList "male" 50 none 1 wStoreL [] 1 [] =
      .ok [] wStoreL ([] ++ [1]) := by
  refine ⟨?_, ?_, ?_⟩
  · exact (legacy_bare_list_infers_continuation wServerList "male" 1 none 0 1 wStoreL []
      [wParsedL] [] [wPlayer] rfl rfl rfl (by decide)).1 rfl
  · exact (legacy_bare_list_infers_continuation wServerList "male" 50 none 0 1 wStoreL []
      [wParsedL] [] [wPlayer] rfl rfl rfl (by decide)).2.1 (by decide) (by simp)
  · exact (legacy_bare_list_infers_continuation wServerEmptyList "male" 50 none 0 1 wStoreL []
      [] [] [] rfl rfl rfl (by decide)).2.2 rfl

/-- Witness for claim C6: normalization of an item missing Name and Id fails
naming exactly those two fields. -/
theorem normalize_error_names_exactly_missing_fields_witness :
    Legacy.parse_api_player wPlayerMissing = .error (.schemaError ["Name", "Id"]) ∧
    Pkg.parse_api_player wPlayerMissing = .error (.schemaError ["Name", "Id"]) ∧
    ("Name" ∈ missing_fields wPlayerMissing ↔
      ("Name" ∈ REQUIRED_API_FIELDS ∧ "Name" ∉ wPlayerMissing.keys)) := by
  have h := normalize_error_names_exactly_missing_fields wPlayerMissing (by decide)
  exact ⟨h.1, h.2.1, h.2.2 "Name"⟩

/-- Witness for claim C7: double failure and no-fallback failure both carry
the primary cause in the composite message. -/
theorem resolve_failure_propagates_both_causes_witness :
    (∃ msg : String, scrape_gender "male" (.error (.transport "timeout"))
        (.error (.valueError "no table")) = .error (.appError msg) ∧
      (∃ a b : String, msg = a ++ (PyError.transport "timeout").message ++ b) ∧
      (∃ a b : String, msg = a ++ (PyError.valueError "no table").message ++ b)) ∧
    (∃ msg : String, scrape_gender "female" (.error (.transport "timeout"))
        (.ok []) = .error (.appError msg) ∧
      ∃ a b : String, msg = a ++ (PyError.transport "timeout").message ++ b) := by
  constructor
  · exact (resolve_failure_propagates_both_causes "male" (.error (.transport "timeout"))
      (.error (.valueError "no table")) (.transport "timeout") rfl).1 rfl
      (.valueError "no table") rfl
  · exact (resolve_failure_propagates_both_causes "female" (.error (.transport "timeout"))
      (.ok []) (.transport "timeout") rfl).2 (by decide)

/-- Witness for claim C8: `6' 1"` parses to 185 cm and `5ft` parses to
`round(5 * 30.48) = 152` cm. -/
theorem parse_measure_imperial_conversion_witness :
    Pkg.parse_measure (.vstr "6\x27 1\"") "Height" = .ok (some 185) ∧
    Pkg.parse_measure (.vstr "5ft") "Height" =
      .ok (some (roundHalfEven ((digitsVal [Char.ofNat 53] : Int) * 3048) 100)) := by
  constructor
  · exact (parse_measure_imperial_conversion (.vstr "6\x27 1\"") "Height" rfl rfl).2.2
  · exact (parse_measure_imperial_conversion (.vstr "5ft") "Height" rfl rfl).2.1
      [Char.ofNat 53] rfl

/-- Witness for claim C9: `None`, the empty string and a blank string parse
to `None`; `abc` raises the descriptive `ValueError` in both snapshots. -/
theorem parse_measure_blank_and_no_numeric_witness :
    Pkg.parse_measure .vnone "Height" = .ok none ∧
    Pkg.parse_measure (.vstr "") "Height" = .ok none ∧
    Pkg.parse_measure (.vstr "   ") "Height" = .ok none ∧
    Pkg.parse_measure (.vstr "abc") "Height" =
      .error (.valueError ("No numeric data found for Height: \x27" ++
        String.mk (lowerChars (pyStrip ("abc" : String).data)) ++ "\x27")) ∧
    Legacy.parse_measure (.vstr "abc") "Height" =
      .error (.valueError ("Invalid format for Height: \x27" ++ "abc" ++
        "\x27. Expected numeric value (e.g., \x27185cm\x27 or \x27185\x27).")) := by
  refine ⟨?_, ?_, ?_, ?_, ?_⟩
  · exact (parse_measure_blank_and_no_numeric "Height" "").1
  · exact (parse_measure_blank_and_no_numeric "Height" "").2.1 rfl
  · exact (parse_measure_blank_and_no_numeric "Height" "   ").2.1 rfl
  · exact (parse_measure_blank_and_no_numeric "Height" "abc").2.2.1 rfl rfl rfl
  · exact (parse_measure_blank_and_no_numeric "Height" "abc").2.2.2 rfl rfl rfl

/-- Counterexample to claim C4 as a universal statement about both
snapshots: the legacy fetch, given a keyed response missing both the items
list and the continuation flag, silently treats it as an empty last page and
succeeds instead of raising. -/
theorem legacy_missing_keys_treated_as_empty_page :
    Legacy.fetchLoop wServerNoPlayers "male" 50 none 1 wStoreL [] 1 [] =
      .ok [] wStoreL [1] ∧
    (Legacy.fetchLoop wServerNoPlayers "male" 50 none 1 wStoreL [] 1 []).isErr = false :=
  ⟨rfl, rfl⟩

/-- Counterexample to claim C5 as a universal statement about both
snapshots: the packaged fetch, given a bare-list page whose item count
equals `page_size` (1 item, `pageSize = 1`) and fuel for more pages,
stops after the first page (only page 1 is requested) instead of
continuing. -/
theorem pkg_bare_full_page_stops :
    Pkg.fetchLoop wServerList "male" 1 none 2 wStoreP [] 1 [] =
      .ok [wParsedP] (save_checkpoint wStoreP "male" 1 [wParsedP]) [1] :=
  rfl

/-- Counterexample to claim C9 as a universal statement about both
snapshots: the legacy parse returns the sentinel string `"N/A"` for empty or
blank input, not a null value. -/
theorem legacy_parse_measure_blank_returns_sentinel :
    Legacy.parse_measure (.vstr "") "Height" = .ok (.vstr "N/A") ∧
    Legacy.parse_measure (.vstr "   ") "Height" = .ok (.vstr "N/A") :=
  ⟨rfl, rfl⟩
